import Mathlib

/-!
Verification of the S3 backup Lambda (lambda-backup.py).

The program is a single-file AWS Lambda handler that backs up every object of
a source bucket into a backup bucket under a timestamped key, enforces a
retention policy on old backups, emits CloudWatch metrics, and offers a
restore utility.  We embed it shallowly: every AWS call is recorded as an
Effect in a trace, and the outcome of each call (listing pages, per-key copy
or delete failures, metrics failure) is supplied by an explicit environment,
so the handler becomes a total deterministic function of that environment.
-/

/-- Model of a Python datetime: calendar fields plus an optional timezone
offset in minutes (none models a naive datetime such as utcnow()). -/
structure PyDateTime where
  year : Nat
  month : Nat
  day : Nat
  hour : Nat
  minute : Nat
  second : Nat
  tzOffsetMinutes : Option Int
deriving DecidableEq, Repr

/-- Model of datetime.replace with tzinfo = None: drop the timezone, keep
the wall-clock fields. -/
def stripTz (t : PyDateTime) : PyDateTime :=
  { t with tzOffsetMinutes := none }

/-- Lexicographic strict comparison of two lists of naturals. -/
def natListLexLt : List Nat → List Nat → Bool
  | [], [] => false
  | [], _ :: _ => true
  | _ :: _, [] => false
  | x :: xs, y :: ys => x < y || (x == y && natListLexLt xs ys)

/-- Python comparison of naive datetimes: lexicographic on the wall-clock
fields (year, month, day, hour, minute, second). -/
def dtLtNaive (a b : PyDateTime) : Bool :=
  natListLexLt [a.year, a.month, a.day, a.hour, a.minute, a.second]
    [b.year, b.month, b.day, b.hour, b.minute, b.second]

/-- Zero-pad a natural to two digits, as the strftime directives m, d, H,
M, S do. -/
def pad2 (n : Nat) : String :=
  if n < 10 then "0" ++ toString n else toString n

/-- Zero-pad a natural to four digits, as the strftime directive Y does for
the year. -/
def pad4 (n : Nat) : String :=
  if n < 10 then "000" ++ toString n
  else if n < 100 then "00" ++ toString n
  else if n < 1000 then "0" ++ toString n
  else toString n

/-- strftime with format YYYYMMDD_HHMMSS, as used for the backup
timestamp. -/
def strftimeYmdHMS (t : PyDateTime) : String :=
  pad4 t.year ++ pad2 t.month ++ pad2 t.day ++ "_" ++
    pad2 t.hour ++ pad2 t.minute ++ pad2 t.second

/-- The timezone suffix of datetime.isoformat: empty for a naive datetime,
otherwise a signed HH:MM offset. -/
def isoTzSuffix : Option Int → String
  | none => ""
  | some off =>
      let sign := if off < 0 then "-" else "+"
      let a := off.natAbs
      sign ++ pad2 (a / 60) ++ ":" ++ pad2 (a % 60)

/-- datetime.isoformat for a datetime with zero microseconds:
YYYY-MM-DDTHH:MM:SS plus the timezone suffix when one is attached. -/
def isoformat (t : PyDateTime) : String :=
  pad4 t.year ++ "-" ++ pad2 t.month ++ "-" ++ pad2 t.day ++ "T" ++
    pad2 t.hour ++ ":" ++ pad2 t.minute ++ ":" ++ pad2 t.second ++
    isoTzSuffix t.tzOffsetMinutes

/-- Days since 1970-01-01 of a proleptic Gregorian civil date, the standard
days-from-civil computation used by calendar libraries (and by the Python
datetime ordinal arithmetic, up to the epoch offset). -/
def daysFromCivil (y m d : Int) : Int :=
  let yAdj : Int := if m ≤ 2 then y - 1 else y
  let era : Int := yAdj.fdiv 400
  let yoe : Int := yAdj - era * 400
  let mp : Int := if m > 2 then m - 3 else m + 9
  let doy : Int := (153 * mp + 2).fdiv 5 + d - 1
  let doe : Int := yoe * 365 + yoe.fdiv 4 - yoe.fdiv 100 + doy
  era * 146097 + doe - 719468

/-- Inverse of daysFromCivil: the civil date (year, month, day) of a day
count since 1970-01-01. -/
def civilFromDays (z0 : Int) : Int × Int × Int :=
  let z : Int := z0 + 719468
  let era : Int := z.fdiv 146097
  let doe : Int := z - era * 146097
  let yoe : Int := (doe - doe.fdiv 1460 + doe.fdiv 36524 - doe.fdiv 146096).fdiv 365
  let y : Int := yoe + era * 400
  let doy : Int := doe - (365 * yoe + yoe.fdiv 4 - yoe.fdiv 100)
  let mp : Int := (5 * doy + 2).fdiv 153
  let d : Int := doy - (153 * mp + 2).fdiv 5 + 1
  let m : Int := if mp < 10 then mp + 3 else mp - 9
  (if m ≤ 2 then y + 1 else y, m, d)

/-- Python datetime minus timedelta(days = n): same time of day, calendar
date moved back n days, timezone preserved. -/
def subDays (t : PyDateTime) (n : Nat) : PyDateTime :=
  let z := daysFromCivil (Int.ofNat t.year) (Int.ofNat t.month) (Int.ofNat t.day) - Int.ofNat n
  let c := civilFromDays z
  { year := c.1.toNat, month := c.2.1.toNat, day := c.2.2.toNat,
    hour := t.hour, minute := t.minute, second := t.second,
    tzOffsetMinutes := t.tzOffsetMinutes }

/-- An object descriptor as returned by list-objects-v2: the fields the
handler reads from each listed object. -/
structure S3ObjectSummary where
  Key : String
  Size : Nat
  LastModified : PyDateTime
deriving DecidableEq, Repr

/-- One page of a paginated listing; Contents is absent on an empty page. -/
structure ListPage where
  Contents : Option (List S3ObjectSummary)
deriving DecidableEq, Repr

/-- One CloudWatch metric data point as built by send-metrics. -/
structure MetricDatum where
  MetricName : String
  Value : Nat
  Unit : String
  Timestamp : PyDateTime
deriving DecidableEq, Repr

/-- An attempted AWS API call, recorded in order of execution.  The ok flag
on copy, delete, head and put-metric-data records whether the underlying
call succeeded; a failed call still appears in the trace because it was
made. -/
inductive Effect where
  | listObjects (bucket : String) (pfx : Option String)
  | copyObject (srcBucket srcKey destBucket destKey : String)
      (metadata : Option (List (String × String))) (ok : Bool)
  | deleteObject (bucket key : String) (ok : Bool)
  | putMetricData (nspace : String) (data : List MetricDatum) (ok : Bool)
  | headObject (bucket key : String) (ok : Bool)
deriving DecidableEq, Repr

/-- A JSON scalar appearing in the handler response body. -/
inductive JVal where
  | str (s : String)
  | num (n : Nat)
deriving DecidableEq, Repr

/-- The structured handler result: an HTTP-style status code and the JSON
body as an ordered key-value list (Python dicts preserve insertion order,
and json.dumps serializes them in that order). -/
structure HandlerResponse where
  statusCode : Nat
  body : List (String × JVal)
deriving DecidableEq, Repr

/-- The environment of one invocation: the clock value, the listing pages
each paginator will yield (an error entry models the page fetch raising),
and the failure oracles for copy, delete and metric calls. -/
structure Env where
  now : PyDateTime
  sourcePages : List (Except String ListPage)
  copyFails : String → Option String
  backupPages : List (Except String ListPage)
  deleteFails : String → Option String
  metricsFail : Option String

/-- The objects of a page, empty when Contents is absent. -/
def pageObjects (p : ListPage) : List S3ObjectSummary :=
  p.Contents.getD []

/-- A run of successfully fetched pages. -/
def okPages (ps : List ListPage) : List (Except String ListPage) :=
  ps.map Except.ok

/-- All objects of a run of pages, in listing order. -/
def allObjects (ps : List ListPage) : List S3ObjectSummary :=
  ps.foldr (fun p acc => pageObjects p ++ acc) []

/-- The page loop of list-source-objects: accumulate the Contents of each
page; a page fetch error aborts with that error and discards the
accumulator, exactly as the raised exception discards the local list. -/
def collectPages : List (Except String ListPage) → List S3ObjectSummary →
    Except String (List S3ObjectSummary)
  | [], acc => .ok acc
  | .error e :: _, _ => .error e
  | .ok pg :: rest, acc =>
      match pg.Contents with
      | some objs => collectPages rest (acc ++ objs)
      | none => collectPages rest acc

/-- list-source-objects: paginate the whole bucket (no prefix), returning
either the concatenated object list or the first page error; the listing
call itself is recorded as an effect. -/
def list_source_objects (bucket : String) (pages : List (Except String ListPage)) :
    Except String (List S3ObjectSummary) × List Effect :=
  (collectPages pages [], [Effect.listObjects bucket none])

/-- Whether the copy of a given source key succeeds in this environment. -/
def copySucceeds (copyFails : String → Option String) (o : S3ObjectSummary) : Bool :=
  (copyFails o.Key).isNone

/-- The provenance metadata attached to a backup copy, in source order. -/
def backupMetadata (source_bucket timestamp : String) (o : S3ObjectSummary) :
    List (String × String) :=
  [("original-bucket", source_bucket),
   ("original-key", o.Key),
   ("backup-timestamp", timestamp),
   ("original-size", toString o.Size),
   ("original-last-modified", isoformat o.LastModified)]

/-- One iteration of the backup loop: build the timestamped backup key and
metadata, attempt the copy, and on success add the object to the count and
size tally; a failing copy is caught and the loop continues. -/
def backupStep (source_bucket backup_bucket timestamp : String)
    (copyFails : String → Option String)
    (acc : Nat × Nat × List Effect) (obj : S3ObjectSummary) : Nat × Nat × List Effect :=
  let backup_key := "backup/" ++ timestamp ++ "/" ++ obj.Key
  let ok := (copyFails obj.Key).isNone
  let effs := acc.2.2 ++
    [Effect.copyObject source_bucket obj.Key backup_bucket backup_key
      (some (backupMetadata source_bucket timestamp obj)) ok]
  if ok then (acc.1 + 1, acc.2.1 + obj.Size, effs) else (acc.1, acc.2.1, effs)

/-- The retention predicate: last-modified with its timezone stripped is
strictly earlier than the cutoff. -/
def isExpired (cutoff : PyDateTime) (o : S3ObjectSummary) : Bool :=
  dtLtNaive (stripTz o.LastModified) cutoff

/-- The deletion loop of cleanup-old-backups over the backup listing pages:
for every listed object older than the cutoff a delete is attempted (its
own failure is caught and does not stop the loop); a page fetch error stops
the loop there, caught by the surrounding handler of the cleanup. -/
def cleanupDeletes (bucket : String) (cutoff : PyDateTime)
    (deleteFails : String → Option String) :
    List (Except String ListPage) → List Effect
  | [] => []
  | .error _ :: _ => []
  | .ok pg :: rest =>
      ((pageObjects pg).filter (isExpired cutoff)).map
        (fun o => Effect.deleteObject bucket o.Key (deleteFails o.Key).isNone) ++
      cleanupDeletes bucket cutoff deleteFails rest

/-- cleanup-old-backups: cutoff is now minus the retention window in days;
list the backup bucket under prefix backup/ and delete expired objects.
Every exception is caught inside, so the function is total and yields only
its trace. -/
def cleanup_old_backups (bucket : String) (retention_days : Nat) (now : PyDateTime)
    (pages : List (Except String ListPage))
    (deleteFails : String → Option String) : List Effect :=
  Effect.listObjects bucket (some "backup/") ::
    cleanupDeletes bucket (subDays now retention_days) deleteFails pages

/-- send-metrics: one put-metric-data call with exactly three data points
under the MapReduce/Backup namespace; an emission failure is caught, so
only the trace records it. -/
def send_metrics (backup_count total_size : Nat) (now : PyDateTime)
    (metricsFail : Option String) : List Effect :=
  [Effect.putMetricData "MapReduce/Backup"
    [{ MetricName := "BackupObjectsCount", Value := backup_count, Unit := "Count",
       Timestamp := now },
     { MetricName := "BackupSizeBytes", Value := total_size, Unit := "Bytes",
       Timestamp := now },
     { MetricName := "BackupSuccess", Value := 1, Unit := "Count",
       Timestamp := now }]
    metricsFail.isNone]

/-- lambda-handler: capture the timestamp, list the source bucket, return
early on an empty listing, otherwise copy every object (skipping failures),
run the retention cleanup, send metrics, and return the structured summary;
an escaping exception (a listing failure) becomes the 500 response. -/
def lambda_handler (source_bucket backup_bucket : String) (retention_days : Nat)
    (env : Env) : HandlerResponse × List Effect :=
  let timestamp := strftimeYmdHMS env.now
  let listed := list_source_objects source_bucket env.sourcePages
  match listed.1 with
  | .error e =>
      ({ statusCode := 500,
         body := [("message", JVal.str "Backup failed"), ("error", JVal.str e)] },
       listed.2)
  | .ok source_objects =>
      if source_objects.isEmpty then
        ({ statusCode := 200,
           body := [("message", JVal.str "No objects to backup"),
                    ("timestamp", JVal.str timestamp)] },
         listed.2)
      else
        let r := source_objects.foldl
          (backupStep source_bucket backup_bucket timestamp env.copyFails) (0, 0, [])
        let cleanupEffs := cleanup_old_backups backup_bucket retention_days env.now
          env.backupPages env.deleteFails
        let metricEffs := send_metrics r.1 r.2.1 env.now env.metricsFail
        ({ statusCode := 200,
           body := [("message", JVal.str "Backup completed successfully"),
                    ("timestamp", JVal.str timestamp),
                    ("objects_backed_up", JVal.num r.1),
                    ("total_size_bytes", JVal.num r.2.1)] },
         listed.2 ++ r.2.2 ++ cleanupEffs ++ metricEffs)

/-- The head-object response fields the restore utility reads. -/
structure HeadResponse where
  Metadata : List (String × String)
deriving DecidableEq, Repr

/-- restore-from-backup: read the backup object metadata, recover the
original key, and copy the backup object back to the source bucket at that
key; every failure (head failure, missing original-key metadata, copy
failure) is caught and reported as false. -/
def restore_from_backup (source_bucket backup_bucket backup_key : String)
    (head : Except String HeadResponse) (copyFail : Option String) :
    Bool × List Effect :=
  match head with
  | .error _ => (false, [Effect.headObject backup_bucket backup_key false])
  | .ok resp =>
      match resp.Metadata.lookup "original-key" with
      | none => (false, [Effect.headObject backup_bucket backup_key true])
      | some original_key =>
          let ok := copyFail.isNone
          (ok, [Effect.headObject backup_bucket backup_key true,
                Effect.copyObject backup_bucket backup_key source_bucket original_key
                  none ok])

/-- The copy effect emitted for one source object during the backup loop. -/
def copyEffect (source_bucket backup_bucket timestamp : String)
    (copyFails : String → Option String) (o : S3ObjectSummary) : Effect :=
  Effect.copyObject source_bucket o.Key backup_bucket
    ("backup/" ++ timestamp ++ "/" ++ o.Key)
    (some (backupMetadata source_bucket timestamp o)) (copySucceeds copyFails o)

/-- Total size in bytes of a list of object descriptors. -/
def sumSizes (l : List S3ObjectSummary) : Nat :=
  (l.map S3ObjectSummary.Size).sum

/-- Concrete run clock used in the examples: 2024-01-15 09:30:00 UTC
(naive, as utcnow returns). -/
def dtJan15 : PyDateTime := ⟨2024, 1, 15, 9, 30, 0, none⟩

/-- A UTC-aware timestamp, as S3 reports LastModified. -/
def dtUtc (y m d h mi s : Nat) : PyDateTime := ⟨y, m, d, h, mi, s, some 0⟩

/-- The keys of the delete calls attempted in a trace, in order. -/
def deleteKeys (effs : List Effect) : List String :=
  effs.filterMap (fun e =>
    match e with
    | Effect.deleteObject _ k _ => some k
    | _ => none)

/-- Example source objects. -/
def objA : S3ObjectSummary := ⟨"a.txt", 100, dtUtc 2024 1 10 0 0 0⟩

def objB : S3ObjectSummary := ⟨"b.txt", 50, dtUtc 2024 1 11 0 0 0⟩

def objCsv : S3ObjectSummary := ⟨"data/file.csv", 2048, dtUtc 2024 1 10 12 0 0⟩

/-- Example backup-bucket objects: one beyond the 30-day window for a run
on 2024-01-15 09:30:00, one inside it, one last modified exactly at the
cutoff 2023-12-16 09:30:00. -/
def objOldBackup : S3ObjectSummary :=
  ⟨"backup/20231201_000000/a.txt", 100, dtUtc 2023 12 1 0 0 0⟩

def objOldBackup2 : S3ObjectSummary :=
  ⟨"backup/20231202_000000/b.txt", 50, dtUtc 2023 12 2 0 0 0⟩

def objNewBackup : S3ObjectSummary :=
  ⟨"backup/20240114_000000/b.txt", 50, dtUtc 2024 1 14 0 0 0⟩

def objCutoffBackup : S3ObjectSummary :=
  ⟨"backup/20231216_093000/c.txt", 10, dtUtc 2023 12 16 9 30 0⟩

/-- Environment of the C1 example: two source objects, the copy of the
second one fails. -/
def envC1 : Env :=
  { now := dtJan15
    sourcePages := [Except.ok ⟨some [objA, objB]⟩]
    copyFails := fun k => if k == "b.txt" then some "AccessDenied" else none
    backupPages := [Except.ok ⟨some []⟩]
    deleteFails := fun _ => none
    metricsFail := none }

/-- Environment of the C3 example: one source object, everything succeeds. -/
def envC3 : Env :=
  { now := dtJan15
    sourcePages := [Except.ok ⟨some [objCsv]⟩]
    copyFails := fun _ => none
    backupPages := [Except.ok ⟨none⟩]
    deleteFails := fun _ => none
    metricsFail := none }

/-- Environment of the C4 example: the single listing page has no
Contents, so the source listing is empty. -/
def envC4 : Env :=
  { now := dtJan15
    sourcePages := [Except.ok ⟨none⟩]
    copyFails := fun _ => none
    backupPages := [Except.ok ⟨some [objOldBackup]⟩]
    deleteFails := fun _ => none
    metricsFail := none }

/-- Environment of the C5 example: the first source listing page succeeds
and carries an object, the second page fetch fails. -/
def envC5 : Env :=
  { now := dtJan15
    sourcePages := [Except.ok ⟨some [objA]⟩, Except.error "ListFailure"]
    copyFails := fun _ => none
    backupPages := []
    deleteFails := fun _ => none
    metricsFail := none }

/-- Environment of the C6 example: the backup-bucket listing fails at its
second page, after a first page with one expired object whose delete also
fails. -/
def envC6 : Env :=
  { now := dtJan15
    sourcePages := [Except.ok ⟨some [objA]⟩]
    copyFails := fun _ => none
    backupPages := [Except.ok ⟨some [objOldBackup]⟩, Except.error "ListFailure"]
    deleteFails := fun k => if k == "backup/20231201_000000/a.txt" then some "DeleteDenied" else none
    metricsFail := none }

/-- Environment of the C8 example: every per-object copy fails, the backup
bucket holds one expired and one fresh backup. -/
def envC8 : Env :=
  { now := dtJan15
    sourcePages := [Except.ok ⟨some [objA, objB]⟩]
    copyFails := fun _ => some "AccessDenied"
    backupPages := [Except.ok ⟨some [objOldBackup, objNewBackup]⟩]
    deleteFails := fun _ => none
    metricsFail := none }

/-- Head response of the C7 example: provenance metadata of a backup of
reports/q1.pdf. -/
def headRespC7 : HeadResponse :=
  ⟨[("original-bucket", "mapreduce-data"),
    ("original-key", "reports/q1.pdf"),
    ("backup-timestamp", "20240115_093000"),
    ("original-size", "2048"),
    ("original-last-modified", "2024-01-10T12:00:00+00:00")]⟩

/-- Head response of the C10 example: an object in the backup bucket not
created by this system, with no original-key metadata. -/
def headRespC10 : HeadResponse :=
  ⟨[("uploaded-by", "someone-else")]⟩

theorem backupFold_spec (sb bb ts : String) (cf : String → Option String)
    (objs : List S3ObjectSummary) :
    ∀ (c0 s0 : Nat) (e0 : List Effect),
    objs.foldl (backupStep sb bb ts cf) (c0, s0, e0) =
      (c0 + (objs.filter (copySucceeds cf)).length,
       s0 + sumSizes (objs.filter (copySucceeds cf)),
       e0 ++ objs.map (copyEffect sb bb ts cf)) := by
  induction objs with
  | nil => intro c0 s0 e0; simp [sumSizes]
  | cons o rest ih =>
    intro c0 s0 e0
    rw [List.foldl_cons]
    by_cases h : copySucceeds cf o
    · have h' : (cf o.Key).isNone = true := h
      simp only [backupStep, h', if_true]
      rw [ih]
      rw [List.filter_cons_of_pos h]
      simp [sumSizes, copyEffect, copySucceeds, h', Prod.mk.injEq]
      omega
    · have h' : (cf o.Key).isNone = false := by
        cases hc : (cf o.Key).isNone
        · rfl
        · exact absurd hc h
      simp only [backupStep, h', Bool.false_eq_true, if_false]
      rw [ih]
      rw [List.filter_cons_of_neg (by simp [h])]
      simp [sumSizes, copyEffect, copySucceeds, h', Prod.mk.injEq]

theorem lambda_handler_ok (source_bucket backup_bucket : String) (retention_days : Nat)
    (env : Env) (objs : List S3ObjectSummary)
    (hlist : collectPages env.sourcePages [] = .ok objs) (hne : objs ≠ []) :
    lambda_handler source_bucket backup_bucket retention_days env =
      ({ statusCode := 200,
         body := [("message", JVal.str "Backup completed successfully"),
                  ("timestamp", JVal.str (strftimeYmdHMS env.now)),
                  ("objects_backed_up",
                    JVal.num (objs.filter (copySucceeds env.copyFails)).length),
                  ("total_size_bytes",
                    JVal.num (sumSizes (objs.filter (copySucceeds env.copyFails))))] },
       Effect.listObjects source_bucket none ::
         (objs.map (copyEffect source_bucket backup_bucket (strftimeYmdHMS env.now)
            env.copyFails) ++
          (cleanup_old_backups backup_bucket retention_days env.now env.backupPages
            env.deleteFails ++
           send_metrics (objs.filter (copySucceeds env.copyFails)).length
             (sumSizes (objs.filter (copySucceeds env.copyFails))) env.now
             env.metricsFail))) := by
  have hne' : objs.isEmpty = false := by
    cases objs with
    | nil => exact absurd rfl hne
    | cons a l => rfl
  unfold lambda_handler list_source_objects
  simp [hlist, hne', backupFold_spec]

theorem lambda_handler_err (source_bucket backup_bucket : String) (retention_days : Nat)
    (env : Env) (e : String)
    (hlist : collectPages env.sourcePages [] = .error e) :
    lambda_handler source_bucket backup_bucket retention_days env =
      ({ statusCode := 500,
         body := [("message", JVal.str "Backup failed"), ("error", JVal.str e)] },
       [Effect.listObjects source_bucket none]) := by
  unfold lambda_handler list_source_objects
  simp [hlist]

theorem lambda_handler_empty (source_bucket backup_bucket : String) (retention_days : Nat)
    (env : Env)
    (hlist : collectPages env.sourcePages [] = .ok []) :
    lambda_handler source_bucket backup_bucket retention_days env =
      ({ statusCode := 200,
         body := [("message", JVal.str "No objects to backup"),
                  ("timestamp", JVal.str (strftimeYmdHMS env.now))] },
       [Effect.listObjects source_bucket none]) := by
  unfold lambda_handler list_source_objects
  simp [hlist]

theorem collectPages_okPages (ps : List ListPage) :
    ∀ acc, collectPages (okPages ps) acc = .ok (acc ++ allObjects ps) := by
  induction ps with
  | nil => intro acc; simp [okPages, collectPages, allObjects]
  | cons p ps ih =>
    intro acc
    have h1 : okPages (p :: ps) = Except.ok p :: okPages ps := rfl
    have h2 : allObjects (p :: ps) = pageObjects p ++ allObjects ps := rfl
    rw [h1, h2]
    cases hc : p.Contents with
    | none =>
        simp only [collectPages, hc]
        rw [ih]
        simp [pageObjects, hc]
    | some objs =>
        simp only [collectPages, hc]
        rw [ih]
        simp [pageObjects, hc, List.append_assoc]

theorem collectPages_error (e : String) (rest : List (Except String ListPage))
    (ps : List ListPage) :
    ∀ acc, collectPages (okPages ps ++ Except.error e :: rest) acc = .error e := by
  induction ps with
  | nil => intro acc; simp [okPages, collectPages]
  | cons p ps ih =>
    intro acc
    have h1 : okPages (p :: ps) ++ Except.error e :: rest =
        Except.ok p :: (okPages ps ++ Except.error e :: rest) := rfl
    rw [h1]
    cases hc : p.Contents with
    | none =>
        simp only [collectPages, hc]
        exact ih acc
    | some objs =>
        simp only [collectPages, hc]
        exact ih (acc ++ objs)

/-- Claim C1: on a non-empty source listing, objects_backed_up counts exactly
the objects whose copy succeeded, so it is at most the number of listed
objects, with equality when no per-object copy fails; total_size_bytes is the
summed size of exactly the successfully copied objects; a failing copy is
skipped (the run still returns the 200 summary) and that object contributes
to neither the count nor the size tally. -/
theorem claim_C1_backup_count_and_size (source_bucket backup_bucket : String)
    (retention_days : Nat) (env : Env) (objs : List S3ObjectSummary)
    (hlist : (list_source_objects source_bucket env.sourcePages).1 = .ok objs)
    (hne : objs ≠ []) :
    (lambda_handler source_bucket backup_bucket retention_days env).1.statusCode = 200 ∧
    ("objects_backed_up",
      JVal.num (objs.filter (copySucceeds env.copyFails)).length) ∈
      (lambda_handler source_bucket backup_bucket retention_days env).1.body ∧
    ("total_size_bytes",
      JVal.num (sumSizes (objs.filter (copySucceeds env.copyFails)))) ∈
      (lambda_handler source_bucket backup_bucket retention_days env).1.body ∧
    (objs.filter (copySucceeds env.copyFails)).length ≤ objs.length ∧
    ((∀ o ∈ objs, copySucceeds env.copyFails o = true) →
      (objs.filter (copySucceeds env.copyFails)).length = objs.length) := by
  have h := lambda_handler_ok source_bucket backup_bucket retention_days env objs
    (by simpa [list_source_objects] using hlist) hne
  rw [h]
  refine ⟨rfl, by simp, by simp, List.length_filter_le _ _, fun hall => ?_⟩
  rw [List.filter_eq_self.mpr hall]

theorem claim_C1_witness :
    ([objA, objB].filter (copySucceeds envC1.copyFails)).length = 1 ∧
    sumSizes ([objA, objB].filter (copySucceeds envC1.copyFails)) = 100 ∧
    ((lambda_handler "mapreduce-data" "mapreduce-backups" 30 envC1).1.statusCode = 200 ∧
     ("objects_backed_up",
       JVal.num ([objA, objB].filter (copySucceeds envC1.copyFails)).length) ∈
       (lambda_handler "mapreduce-data" "mapreduce-backups" 30 envC1).1.body ∧
     ("total_size_bytes",
       JVal.num (sumSizes ([objA, objB].filter (copySucceeds envC1.copyFails)))) ∈
       (lambda_handler "mapreduce-data" "mapreduce-backups" 30 envC1).1.body ∧
     ([objA, objB].filter (copySucceeds envC1.copyFails)).length ≤ [objA, objB].length ∧
     ((∀ o ∈ [objA, objB], copySucceeds envC1.copyFails o = true) →
       ([objA, objB].filter (copySucceeds envC1.copyFails)).length =
         [objA, objB].length)) :=
  ⟨by decide, by decide,
   claim_C1_backup_count_and_size "mapreduce-data" "mapreduce-backups" 30 envC1
     [objA, objB] rfl (by decide)⟩

theorem natListLexLt_self (l : List Nat) : natListLexLt l l = false := by
  induction l with
  | nil => rfl
  | cons x xs ih => simp [natListLexLt, ih]

theorem cleanupDeletes_okPages (bucket : String) (cutoff : PyDateTime)
    (df : String → Option String) (ps : List ListPage) :
    cleanupDeletes bucket cutoff df (okPages ps) =
      ((allObjects ps).filter (isExpired cutoff)).map
        (fun o => Effect.deleteObject bucket o.Key (df o.Key).isNone) := by
  induction ps with
  | nil => rfl
  | cons p ps ih =>
      have h1 : okPages (p :: ps) = Except.ok p :: okPages ps := rfl
      have h2 : allObjects (p :: ps) = pageObjects p ++ allObjects ps := rfl
      rw [h1, h2]
      simp only [cleanupDeletes, ih, List.filter_append, List.map_append]

/-- Claim C2: on a fully listed backup bucket, the retention pass issues,
besides the one listing call under prefix backup/, exactly one delete per
listed object whose last-modified time with its timezone stripped is
strictly earlier than the cutoff now minus retention_days days, in listing
order; an object whose stripped last-modified time equals the cutoff is not
expired, hence retained. -/
theorem claim_C2_retention (bucket : String) (retention_days : Nat)
    (now : PyDateTime) (ps : List ListPage) (deleteFails : String → Option String) :
    cleanup_old_backups bucket retention_days now (okPages ps) deleteFails =
      Effect.listObjects bucket (some "backup/") ::
        ((allObjects ps).filter (isExpired (subDays now retention_days))).map
          (fun o => Effect.deleteObject bucket o.Key (deleteFails o.Key).isNone) ∧
    (∀ o : S3ObjectSummary, stripTz o.LastModified = subDays now retention_days →
      isExpired (subDays now retention_days) o = false) := by
  constructor
  · unfold cleanup_old_backups
    rw [cleanupDeletes_okPages]
  · intro o ho
    unfold isExpired
    rw [ho]
    exact natListLexLt_self _

theorem claim_C2_witness :
    isExpired (subDays dtJan15 30) objOldBackup = true ∧
    isExpired (subDays dtJan15 30) objNewBackup = false ∧
    (cleanup_old_backups "mapreduce-backups" 30 dtJan15
        (okPages [⟨some [objOldBackup, objCutoffBackup, objNewBackup]⟩])
        (fun _ => none) =
      Effect.listObjects "mapreduce-backups" (some "backup/") ::
        ((allObjects [⟨some [objOldBackup, objCutoffBackup, objNewBackup]⟩]).filter
          (isExpired (subDays dtJan15 30))).map
          (fun o => Effect.deleteObject "mapreduce-backups" o.Key
            ((fun _ => (none : Option String)) o.Key).isNone)) ∧
    isExpired (subDays dtJan15 30) objCutoffBackup = false :=
  ⟨by decide, by decide,
   (claim_C2_retention "mapreduce-backups" 30 dtJan15
      [⟨some [objOldBackup, objCutoffBackup, objNewBackup]⟩] (fun _ => none)).1,
   (claim_C2_retention "mapreduce-backups" 30 dtJan15
      [⟨some [objOldBackup, objCutoffBackup, objNewBackup]⟩] (fun _ => none)).2
     objCutoffBackup (by decide)⟩

/-- Claim C4: on an empty source listing the handler returns status 200
with a body holding exactly the no-objects message and the run timestamp,
the count fields are absent, and the trace holds only the source listing
call: no copy, no retention cleanup, no metrics emission. -/
theorem claim_C4_empty_source (source_bucket backup_bucket : String)
    (retention_days : Nat) (env : Env)
    (hlist : (list_source_objects source_bucket env.sourcePages).1 = .ok []) :
    lambda_handler source_bucket backup_bucket retention_days env =
      ({ statusCode := 200,
         body := [("message", JVal.str "No objects to backup"),
                  ("timestamp", JVal.str (strftimeYmdHMS env.now))] },
       [Effect.listObjects source_bucket none]) ∧
    (lambda_handler source_bucket backup_bucket retention_days env).1.body.lookup
      "objects_backed_up" = none ∧
    (lambda_handler source_bucket backup_bucket retention_days env).1.body.lookup
      "total_size_bytes" = none := by
  have h := lambda_handler_empty source_bucket backup_bucket retention_days env
    (by simpa [list_source_objects] using hlist)
  refine ⟨h, ?_, ?_⟩ <;> rw [h] <;> rfl

theorem claim_C4_witness :
    lambda_handler "mapreduce-data" "mapreduce-backups" 30 envC4 =
      ({ statusCode := 200,
         body := [("message", JVal.str "No objects to backup"),
                  ("timestamp", JVal.str (strftimeYmdHMS envC4.now))] },
       [Effect.listObjects "mapreduce-data" none]) ∧
    (lambda_handler "mapreduce-data" "mapreduce-backups" 30 envC4).1.body.lookup
      "objects_backed_up" = none ∧
    (lambda_handler "mapreduce-data" "mapreduce-backups" 30 envC4).1.body.lookup
      "total_size_bytes" = none :=
  claim_C4_empty_source "mapreduce-data" "mapreduce-backups" 30 envC4 rfl

/-- Claim C5: a page failure while listing the source bucket makes the
whole listing fail with that error (nothing of the already fetched pages
is returned), and the backup run
returns status 500 with the error message in the body, the trace holding
only the source listing call: no copy, no retention pass, no metrics. -/
theorem claim_C5_listing_failure (source_bucket backup_bucket : String)
    (retention_days : Nat) (env : Env) (ps : List ListPage) (e : String)
    (rest : List (Except String ListPage))
    (hpages : env.sourcePages = okPages ps ++ Except.error e :: rest)
    (hne : e ≠ "") :
    (list_source_objects source_bucket env.sourcePages).1 = .error e ∧
    lambda_handler source_bucket backup_bucket retention_days env =
      ({ statusCode := 500,
         body := [("message", JVal.str "Backup failed"), ("error", JVal.str e)] },
       [Effect.listObjects source_bucket none]) ∧
    ("error", JVal.str e) ∈
      (lambda_handler source_bucket backup_bucket retention_days env).1.body ∧
    e ≠ "" := by
  have hcol : collectPages env.sourcePages [] = .error e := by
    rw [hpages]
    exact collectPages_error e rest ps []
  have h := lambda_handler_err source_bucket backup_bucket retention_days env e hcol
  refine ⟨by simp [list_source_objects, hcol], h, ?_, hne⟩
  rw [h]
  simp

theorem claim_C5_witness :
    (list_source_objects "mapreduce-data" envC5.sourcePages).1 =
      .error "ListFailure" ∧
    lambda_handler "mapreduce-data" "mapreduce-backups" 30 envC5 =
      ({ statusCode := 500,
         body := [("message", JVal.str "Backup failed"),
                  ("error", JVal.str "ListFailure")] },
       [Effect.listObjects "mapreduce-data" none]) ∧
    ("error", JVal.str "ListFailure") ∈
      (lambda_handler "mapreduce-data" "mapreduce-backups" 30 envC5).1.body ∧
    "ListFailure" ≠ "" :=
  claim_C5_listing_failure "mapreduce-data" "mapreduce-backups" 30 envC5
    [⟨some [objA]⟩] "ListFailure" [] rfl (by decide)

theorem cleanupDeletes_shape (bucket : String) (cutoff : PyDateTime)
    (df : String → Option String) :
    ∀ (pages : List (Except String ListPage)) (e : Effect),
      e ∈ cleanupDeletes bucket cutoff df pages →
      ∃ k b, e = Effect.deleteObject bucket k b := by
  intro pages
  induction pages with
  | nil => intro e he; simp [cleanupDeletes] at he
  | cons p rest ih =>
      intro e he
      cases p with
      | error msg => simp [cleanupDeletes] at he
      | ok pg =>
          simp only [cleanupDeletes] at he
          rcases List.mem_append.mp he with h1 | h2
          · rcases List.mem_map.mp h1 with ⟨o, _, heq⟩
            exact ⟨o.Key, (df o.Key).isNone, heq.symm⟩
          · exact ih e h2

theorem cleanup_shape (bucket : String) (retention_days : Nat) (now : PyDateTime)
    (pages : List (Except String ListPage)) (df : String → Option String) :
    ∀ e ∈ cleanup_old_backups bucket retention_days now pages df,
      (∃ p, e = Effect.listObjects bucket p) ∨ ∃ k b, e = Effect.deleteObject bucket k b := by
  intro e he
  simp only [cleanup_old_backups, List.mem_cons] at he
  rcases he with h | h
  · exact Or.inl ⟨some "backup/", h⟩
  · exact Or.inr (cleanupDeletes_shape bucket _ df pages e h)

theorem send_metrics_shape (c s : Nat) (now : PyDateTime) (mf : Option String) :
    ∀ e ∈ send_metrics c s now mf,
      ∃ ds b, e = Effect.putMetricData "MapReduce/Backup" ds b := by
  intro e he
  simp only [send_metrics, List.mem_singleton] at he
  exact ⟨_, _, he⟩

/-- Claim C3: every copy issued by a backup run targets the key
backup/timestamp/original-key, where timestamp is the run clock formatted
YYYYMMDD_HHMMSS, and carries exactly the five metadata entries
original-bucket, original-key, backup-timestamp, original-size (the size as
a decimal string) and original-last-modified (the ISO 8601 rendering of the
last-modified time), in that order. -/
theorem claim_C3_backup_key_format (source_bucket backup_bucket : String)
    (retention_days : Nat) (env : Env) (objs : List S3ObjectSummary)
    (hlist : (list_source_objects source_bucket env.sourcePages).1 = .ok objs) :
    ∀ sB k dB dk md ok,
      Effect.copyObject sB k dB dk md ok ∈
        (lambda_handler source_bucket backup_bucket retention_days env).2 →
      ∃ o ∈ objs, sB = source_bucket ∧ k = o.Key ∧ dB = backup_bucket ∧
        dk = "backup/" ++ strftimeYmdHMS env.now ++ "/" ++ o.Key ∧
        md = some [("original-bucket", source_bucket),
                   ("original-key", o.Key),
                   ("backup-timestamp", strftimeYmdHMS env.now),
                   ("original-size", toString o.Size),
                   ("original-last-modified", isoformat o.LastModified)] := by
  by_cases hobs : objs = []
  · subst hobs
    have h := lambda_handler_empty source_bucket backup_bucket retention_days env
      (by simpa [list_source_objects] using hlist)
    rw [h]
    intro sB k dB dk md ok hmem
    simp at hmem
  · have h := lambda_handler_ok source_bucket backup_bucket retention_days env objs
      (by simpa [list_source_objects] using hlist) hobs
    rw [h]
    intro sB k dB dk md ok hmem
    simp only [List.mem_cons, List.mem_append] at hmem
    rcases hmem with heq | hmem1 | hmem2 | hmem3
    · exact Effect.noConfusion heq
    · rcases List.mem_map.mp hmem1 with ⟨o, ho, heq⟩
      simp only [copyEffect] at heq
      injection heq with h1 h2 h3 h4 h5 h6
      exact ⟨o, ho, h1.symm, h2.symm, h3.symm, h4.symm, h5.symm⟩
    · rcases cleanup_shape backup_bucket retention_days env.now env.backupPages
        env.deleteFails _ hmem2 with ⟨p, heq⟩ | ⟨k', b, heq⟩
      · exact Effect.noConfusion heq
      · exact Effect.noConfusion heq
    · rcases send_metrics_shape _ _ env.now env.metricsFail _ hmem3 with ⟨ds, b, heq⟩
      exact Effect.noConfusion heq

theorem claim_C3_witness :
    Effect.copyObject "mapreduce-data" "data/file.csv" "mapreduce-backups"
      "backup/20240115_093000/data/file.csv"
      (some [("original-bucket", "mapreduce-data"),
             ("original-key", "data/file.csv"),
             ("backup-timestamp", "20240115_093000"),
             ("original-size", "2048"),
             ("original-last-modified", "2024-01-10T12:00:00+00:00")]) true ∈
      (lambda_handler "mapreduce-data" "mapreduce-backups" 30 envC3).2 ∧
    (∀ sB k dB dk md ok,
      Effect.copyObject sB k dB dk md ok ∈
        (lambda_handler "mapreduce-data" "mapreduce-backups" 30 envC3).2 →
      ∃ o ∈ [objCsv], sB = "mapreduce-data" ∧ k = o.Key ∧ dB = "mapreduce-backups" ∧
        dk = "backup/" ++ strftimeYmdHMS envC3.now ++ "/" ++ o.Key ∧
        md = some [("original-bucket", "mapreduce-data"),
                   ("original-key", o.Key),
                   ("backup-timestamp", strftimeYmdHMS envC3.now),
                   ("original-size", toString o.Size),
                   ("original-last-modified", isoformat o.LastModified)]) :=
  ⟨by decide,
   claim_C3_backup_key_format "mapreduce-data" "mapreduce-backups" 30 envC3 [objCsv] rfl⟩

theorem deleteKeys_cons_delete (bucket k : String) (b : Bool) (es : List Effect) :
    deleteKeys (Effect.deleteObject bucket k b :: es) = k :: deleteKeys es := rfl

theorem deleteKeys_deleteMap (bucket : String) (df : String → Option String)
    (l : List S3ObjectSummary) :
    deleteKeys (l.map (fun o => Effect.deleteObject bucket o.Key (df o.Key).isNone)) =
      l.map S3ObjectSummary.Key := by
  induction l with
  | nil => rfl
  | cons o rest ih =>
      rw [List.map_cons, deleteKeys_cons_delete, ih, List.map_cons]

theorem deleteKeys_append (a b : List Effect) :
    deleteKeys (a ++ b) = deleteKeys a ++ deleteKeys b := by
  simp [deleteKeys]

theorem cleanupDeletes_keys_indep (bucket : String) (cutoff : PyDateTime)
    (df df' : String → Option String) :
    ∀ pages, deleteKeys (cleanupDeletes bucket cutoff df pages) =
      deleteKeys (cleanupDeletes bucket cutoff df' pages) := by
  intro pages
  induction pages with
  | nil => rfl
  | cons p rest ih =>
      cases p with
      | error msg => rfl
      | ok pg =>
          simp only [cleanupDeletes, deleteKeys_append, deleteKeys_deleteMap, ih]

/-- Claim C6: the keys whose deletion the retention pass attempts do not
depend on which deletions fail (a failing delete is caught and the loop
continues with the rest), and a failure to list the backup bucket leaves
the cleanup silent, the surrounding backup run still returning status
200. -/
theorem claim_C6_cleanup_containment :
    (∀ (bucket : String) (retention_days : Nat) (now : PyDateTime)
       (pages : List (Except String ListPage)) (df df' : String → Option String),
       deleteKeys (cleanup_old_backups bucket retention_days now pages df) =
         deleteKeys (cleanup_old_backups bucket retention_days now pages df')) ∧
    (∀ (source_bucket backup_bucket : String) (retention_days : Nat) (env : Env)
       (objs : List S3ObjectSummary) (ps : List ListPage) (e : String)
       (rest : List (Except String ListPage)),
       (list_source_objects source_bucket env.sourcePages).1 = .ok objs →
       objs ≠ [] →
       env.backupPages = okPages ps ++ Except.error e :: rest →
       (lambda_handler source_bucket backup_bucket retention_days env).1.statusCode
         = 200) := by
  constructor
  · intro bucket retention_days now pages df df'
    unfold cleanup_old_backups
    exact cleanupDeletes_keys_indep bucket _ df df' pages
  · intro source_bucket backup_bucket retention_days env objs ps e rest hlist hne _
    rw [lambda_handler_ok source_bucket backup_bucket retention_days env objs
      (by simpa [list_source_objects] using hlist) hne]

theorem claim_C6_witness :
    deleteKeys (cleanup_old_backups "mapreduce-backups" 30 dtJan15
        [Except.ok ⟨some [objOldBackup, objOldBackup2]⟩]
        (fun k => if k == "backup/20231201_000000/a.txt" then some "DeleteDenied" else none)) =
      deleteKeys (cleanup_old_backups "mapreduce-backups" 30 dtJan15
        [Except.ok ⟨some [objOldBackup, objOldBackup2]⟩] (fun _ => none)) ∧
    deleteKeys (cleanup_old_backups "mapreduce-backups" 30 dtJan15
        [Except.ok ⟨some [objOldBackup, objOldBackup2]⟩]
        (fun k => if k == "backup/20231201_000000/a.txt" then some "DeleteDenied" else none)) =
      ["backup/20231201_000000/a.txt", "backup/20231202_000000/b.txt"] ∧
    (lambda_handler "mapreduce-data" "mapreduce-backups" 30 envC6).1.statusCode = 200 :=
  ⟨claim_C6_cleanup_containment.1 "mapreduce-backups" 30 dtJan15
      [Except.ok ⟨some [objOldBackup, objOldBackup2]⟩]
      (fun k => if k == "backup/20231201_000000/a.txt" then some "DeleteDenied" else none)
      (fun _ => none),
   by decide,
   claim_C6_cleanup_containment.2 "mapreduce-data" "mapreduce-backups" 30 envC6 [objA]
     [⟨some [objOldBackup]⟩] "ListFailure" [] rfl (by decide) rfl⟩

/-- Claim C7: restore succeeds exactly when the head call succeeds, its
metadata holds an original-key, and the copy back succeeds; when the
metadata holds original-key k, the attempted copy goes from the backup
object to the source bucket at key k, with no further check of the
destination, and the boolean result is the copy outcome — a failure is
returned as false, never raised. -/
theorem claim_C7_restore (source_bucket backup_bucket backup_key : String)
    (head : Except String HeadResponse) (copyFail : Option String) :
    ((restore_from_backup source_bucket backup_bucket backup_key head copyFail).1 = true ↔
      (∃ resp k, head = .ok resp ∧ resp.Metadata.lookup "original-key" = some k ∧
        copyFail = none)) ∧
    (∀ resp k, head = .ok resp → resp.Metadata.lookup "original-key" = some k →
      (restore_from_backup source_bucket backup_bucket backup_key head copyFail).2 =
        [Effect.headObject backup_bucket backup_key true,
         Effect.copyObject backup_bucket backup_key source_bucket k none
           copyFail.isNone] ∧
      (restore_from_backup source_bucket backup_bucket backup_key head copyFail).1 =
        copyFail.isNone) := by
  cases head with
  | error e =>
      constructor
      · simp [restore_from_backup]
      · intro resp k h
        exact absurd h (by simp)
  | ok resp =>
      cases hk : resp.Metadata.lookup "original-key" with
      | none =>
          constructor
          · simp [restore_from_backup, hk]
          · intro resp' k h1 h2
            injection h1 with h1'
            rw [← h1', hk] at h2
            cases h2
      | some k0 =>
          constructor
          · simp [restore_from_backup, hk, Option.isNone_iff_eq_none]
          · intro resp' k h1 h2
            injection h1 with h1'
            rw [← h1', hk] at h2
            injection h2 with h2'
            subst h2'
            simp [restore_from_backup, hk]

theorem claim_C7_witness :
    (restore_from_backup "mapreduce-data" "mapreduce-backups"
        "backup/20240115_093000/reports/q1.pdf" (.ok headRespC7) none).2 =
      [Effect.headObject "mapreduce-backups" "backup/20240115_093000/reports/q1.pdf" true,
       Effect.copyObject "mapreduce-backups" "backup/20240115_093000/reports/q1.pdf"
         "mapreduce-data" "reports/q1.pdf" none (none : Option String).isNone] ∧
    (restore_from_backup "mapreduce-data" "mapreduce-backups"
        "backup/20240115_093000/reports/q1.pdf" (.ok headRespC7) none).1 =
      (none : Option String).isNone :=
  (claim_C7_restore "mapreduce-data" "mapreduce-backups"
      "backup/20240115_093000/reports/q1.pdf" (.ok headRespC7) none).2
    headRespC7 "reports/q1.pdf" rfl rfl

/-- Claim C8: on a non-empty source listing the run performs, after the
source listing call, one copy attempt per listed object, then the whole
retention cleanup (unconditionally, whatever the copy outcomes), then the
metrics emission with the accumulated count and byte total, and returns
status 200 with the body {message, timestamp, objects_backed_up,
total_size_bytes}; when the source listing fails, it returns status 500
with the body {message, error}. -/
theorem claim_C8_run_summary (source_bucket backup_bucket : String)
    (retention_days : Nat) (env : Env) :
    (∀ objs, (list_source_objects source_bucket env.sourcePages).1 = .ok objs →
      objs ≠ [] →
      lambda_handler source_bucket backup_bucket retention_days env =
        ({ statusCode := 200,
           body := [("message", JVal.str "Backup completed successfully"),
                    ("timestamp", JVal.str (strftimeYmdHMS env.now)),
                    ("objects_backed_up",
                      JVal.num (objs.filter (copySucceeds env.copyFails)).length),
                    ("total_size_bytes",
                      JVal.num (sumSizes (objs.filter (copySucceeds env.copyFails))))] },
         Effect.listObjects source_bucket none ::
           (objs.map (copyEffect source_bucket backup_bucket (strftimeYmdHMS env.now)
              env.copyFails) ++
            (cleanup_old_backups backup_bucket retention_days env.now env.backupPages
              env.deleteFails ++
             send_metrics (objs.filter (copySucceeds env.copyFails)).length
               (sumSizes (objs.filter (copySucceeds env.copyFails))) env.now
               env.metricsFail)))) ∧
    (∀ e, (list_source_objects source_bucket env.sourcePages).1 = .error e →
      lambda_handler source_bucket backup_bucket retention_days env =
        ({ statusCode := 500,
           body := [("message", JVal.str "Backup failed"), ("error", JVal.str e)] },
         [Effect.listObjects source_bucket none])) := by
  constructor
  · intro objs h hne
    exact lambda_handler_ok source_bucket backup_bucket retention_days env objs
      (by simpa [list_source_objects] using h) hne
  · intro e h
    exact lambda_handler_err source_bucket backup_bucket retention_days env e
      (by simpa [list_source_objects] using h)

theorem claim_C8_witness :
    lambda_handler "mapreduce-data" "mapreduce-backups" 30 envC8 =
      ({ statusCode := 200,
         body := [("message", JVal.str "Backup completed successfully"),
                  ("timestamp", JVal.str (strftimeYmdHMS envC8.now)),
                  ("objects_backed_up",
                    JVal.num ([objA, objB].filter (copySucceeds envC8.copyFails)).length),
                  ("total_size_bytes",
                    JVal.num (sumSizes ([objA, objB].filter (copySucceeds envC8.copyFails))))] },
       Effect.listObjects "mapreduce-data" none ::
         ([objA, objB].map (copyEffect "mapreduce-data" "mapreduce-backups"
            (strftimeYmdHMS envC8.now) envC8.copyFails) ++
          (cleanup_old_backups "mapreduce-backups" 30 envC8.now envC8.backupPages
            envC8.deleteFails ++
           send_metrics ([objA, objB].filter (copySucceeds envC8.copyFails)).length
             (sumSizes ([objA, objB].filter (copySucceeds envC8.copyFails))) envC8.now
             envC8.metricsFail))) ∧
    ([objA, objB].filter (copySucceeds envC8.copyFails)).length = 0 ∧
    Effect.listObjects "mapreduce-backups" (some "backup/") ∈
      (lambda_handler "mapreduce-data" "mapreduce-backups" 30 envC8).2 :=
  ⟨(claim_C8_run_summary "mapreduce-data" "mapreduce-backups" 30 envC8).1
     [objA, objB] rfl (by decide),
   by decide, by decide⟩

/-- Claim C9: the metrics reporter emits one put-metric-data call under the
namespace MapReduce/Backup holding exactly three named data points — the
object count, the byte count, and the success flag with constant value 1 —
whatever the emission outcome, and an emission failure never changes the
handler response. -/
theorem claim_C9_metrics (backup_count total_size : Nat) (now : PyDateTime)
    (metricsFail : Option String) :
    send_metrics backup_count total_size now metricsFail =
      [Effect.putMetricData "MapReduce/Backup"
        [{ MetricName := "BackupObjectsCount", Value := backup_count, Unit := "Count",
           Timestamp := now },
         { MetricName := "BackupSizeBytes", Value := total_size, Unit := "Bytes",
           Timestamp := now },
         { MetricName := "BackupSuccess", Value := 1, Unit := "Count",
           Timestamp := now }] metricsFail.isNone] ∧
    (∀ (source_bucket backup_bucket : String) (retention_days : Nat) (env : Env),
      (lambda_handler source_bucket backup_bucket retention_days
        { env with metricsFail := metricsFail }).1 =
      (lambda_handler source_bucket backup_bucket retention_days env).1) := by
  refine ⟨rfl, ?_⟩
  intro source_bucket backup_bucket retention_days env
  cases h : collectPages env.sourcePages [] with
  | error e =>
      rw [lambda_handler_err source_bucket backup_bucket retention_days _ e
        (by simpa using h)]
      rw [lambda_handler_err source_bucket backup_bucket retention_days env e h]
  | ok objs =>
      by_cases hne : objs = []
      · subst hne
        rw [lambda_handler_empty source_bucket backup_bucket retention_days _
          (by simpa using h)]
        rw [lambda_handler_empty source_bucket backup_bucket retention_days env h]
      · rw [lambda_handler_ok source_bucket backup_bucket retention_days _ objs
          (by simpa using h) hne]
        rw [lambda_handler_ok source_bucket backup_bucket retention_days env objs h hne]

/-- Claim C10: when the head call succeeds but the backup object carries no
original-key metadata entry, restore attempts no copy and returns false
(the KeyError is caught, not raised). -/
theorem claim_C10_restore_missing_key (source_bucket backup_bucket backup_key : String)
    (resp : HeadResponse) (copyFail : Option String)
    (hmeta : resp.Metadata.lookup "original-key" = none) :
    restore_from_backup source_bucket backup_bucket backup_key (.ok resp) copyFail =
      (false, [Effect.headObject backup_bucket backup_key true]) := by
  simp [restore_from_backup, hmeta]

theorem claim_C10_witness :
    restore_from_backup "mapreduce-data" "mapreduce-backups" "backup/manual-upload.txt"
      (.ok headRespC10) none =
      (false, [Effect.headObject "mapreduce-backups" "backup/manual-upload.txt" true]) :=
  claim_C10_restore_missing_key "mapreduce-data" "mapreduce-backups"
    "backup/manual-upload.txt" headRespC10 none rfl
